import Mathlib

/- Shallow embedding of src/playlists/playlist.py: element classification,
   validation and serialization, playlist population from a manifest or a
   directory scan, saving, reloading, and the playback cursor. -/

namespace PlaylistsPy

/-- Media types from the Python enum PlaylistElementType; the Python value
None (unrecognized) is modelled as Option.none at use sites. -/
inductive PlaylistElementType
  | IMMAGINE
  | VIDEO
  | STREAM
deriving DecidableEq

/-- A Python value that is either a pathlib.Path (stored as its posix string,
assumed absolute and already normalized) or a raw str (streams keep the str). -/
inductive PathOrStr
  | path (p : String)
  | str (s : String)
deriving DecidableEq

/-- Python str.startswith, computed on character lists. -/
def pyStartsWith (s p : String) : Bool := p.toList.isPrefixOf s.toList

/-- Python str.endswith, computed on character lists. -/
def pyEndsWith (s p : String) : Bool := p.toList.isSuffixOf s.toList

/-- PlaylistElement.classifica: a path starting with http is a stream, a
path ending in png, jpg or jpeg is an image, a path ending in mp4 is a
video, anything else yields None. -/
def classifica (path : String) : Option PlaylistElementType :=
  if pyStartsWith path "http" then some .STREAM
  else if pyEndsWith path "png" || pyEndsWith path "jpg" || pyEndsWith path "jpeg" then
    some .IMMAGINE
  else if pyEndsWith path "mp4" then some .VIDEO
  else none

/-- A playlist element: path (Path or raw str), tipo (None means
unrecognized) and optional durata. Durations are modelled by their yaml
string form, so the str conversion in serialize is the identity. -/
structure PlaylistElement where
  path : PathOrStr
  tipo : Option PlaylistElementType
  durata : Option String
deriving DecidableEq

/-- Python (relative_to_dir / path).resolve() for an absolute normalized
directory: an absolute right argument wins, otherwise the two are joined. -/
def pathJoin (dir p : String) : String :=
  if pyStartsWith p "/" then p else dir ++ "/" ++ p

/-- PlaylistElement.__init__: classify the raw string first; non-stream
elements store a resolved Path anchored at relative_to_dir when given,
streams store the raw string; durata is stored as given. -/
def mkPlaylistElement (p : String) (relativeToDir : Option String)
    (durata : Option String) : PlaylistElement :=
  if classifica p = some .STREAM then
    ⟨.str p, classifica p, durata⟩
  else
    match relativeToDir with
    | some d => ⟨.path (pathJoin d p), classifica p, durata⟩
    | none => ⟨.path p, classifica p, durata⟩

/-- PlaylistElement.source: the posix string of a Path, or the raw str. -/
def PlaylistElement.source (e : PlaylistElement) : String :=
  match e.path with
  | .path p => p
  | .str s => s

/-- PlaylistElement.is_valid against a filesystem given as the list of posix
paths of the regular files that exist: unrecognized elements are invalid,
streams are always valid, images and videos are valid iff the file exists. -/
def PlaylistElement.is_valid (e : PlaylistElement) (fs : List String) : Bool :=
  match e.tipo with
  | none => false
  | some .STREAM => true
  | some _ => fs.contains e.source

/-- Characters after the last slash of a character list. -/
def lastSegment (cs : List Char) : List Char :=
  cs.foldl (fun acc c => if c = '/' then [] else acc ++ [c]) []

/-- pathlib's Path.name for our normalized posix strings: the part after
the last slash. -/
def pathName (p : String) : String := String.mk (lastSegment p.toList)

/-- Python exceptions that the embedded code can raise. -/
inductive PyError
  | indexError
  | keyError
  | attributeError
  | ioError
  | missingPlaylistFolder
deriving DecidableEq

/-- A yaml node written by save for one element: either a plain filename
string, or a mapping carrying the name and durata fields. -/
inductive YamlEntry
  | plain (s : String)
  | withDurata (n d : String)
deriving DecidableEq

/-- PlaylistElement.serialize: with a durata, a mapping of the Path's base
name and the durata; without, the bare base name. When path is a raw str
(streams), the attribute access path.name raises AttributeError. -/
def PlaylistElement.serialize (e : PlaylistElement) : Except PyError YamlEntry :=
  match e.path, e.durata with
  | .path p, some d => .ok (.withDurata (pathName p) d)
  | .path p, none => .ok (.plain (pathName p))
  | .str _, _ => .error .attributeError

/-- Python equality of a str against a Path-or-str value: str compared with
a Path object is always False in Python, str against str compares contents. -/
def pyEqStrVal (s : String) (v : PathOrStr) : Bool :=
  match v with
  | .path _ => false
  | .str t => s == t

/-- PlaylistElement.__cmp__: the isinstance(other, Path) tests are always
False because other is a PlaylistElement, so both outer branches compare a
string (the posix form of self.path when it is a Path, otherwise the raw
str) against the Python value other.path, then conjoin durata equality. -/
def cmpElements (a b : PlaylistElement) : Bool :=
  (match a.path with
   | .path p => pyEqStrVal p b.path
   | .str s => pyEqStrVal s b.path)
  && a.durata == b.durata

/-- fnmatch semantics of the glob pattern used by populate_playlist, a star,
a dot and the four character classes [jpeg][jpg][png][mp4]: the name must
end in a dot followed by exactly four characters, one from each class. -/
def scanGlobMatches (n : String) : Bool :=
  match n.toList.reverse with
  | c4 :: c3 :: c2 :: c1 :: '.' :: _ =>
    ['j', 'p', 'e', 'g'].contains c1 && ['j', 'p', 'g'].contains c2
      && ['p', 'n', 'g'].contains c3 && ['m', 'p', '4'].contains c4
  | _ => false

/-- Lexicographic comparison of character lists by code point, as Python
sorts strings. -/
def charListLe : List Char → List Char → Bool
  | [], _ => true
  | _ :: _, [] => false
  | a :: as, b :: bs => if a = b then charListLe as bs else decide (a.toNat < b.toNat)

/-- Python string ordering used by sorted(). -/
def strLe (s t : String) : Bool := charListLe s.toList t.toList

/-- Insert a string into an already sorted list. -/
def insertSorted (s : String) : List String → List String
  | [] => [s]
  | t :: ts => if strLe s t then s :: t :: ts else t :: insertSorted s ts

/-- Python sorted() on a list of strings, as an insertion sort. -/
def sortStrings (l : List String) : List String := l.foldr insertSorted []

/-- The directory-scan branch of Playlist.populate_playlist: glob the
directory entries against the scan pattern, take the posix strings of the
matches (directory joined with the entry name), sort them, and build one
element per match anchored at the directory, with no durata. -/
def populateScan (dirPosix : String) (files : List String) : List PlaylistElement :=
  let filelist := sortStrings ((files.filter scanGlobMatches).map (fun n => dirPosix ++ "/" ++ n))
  filelist.map (fun el => mkPlaylistElement el (some dirPosix) none)

/-- A yaml item read from a manifest: a plain string, or a mapping whose
name and durata keys may each be present or absent. -/
inductive YamlItem
  | plain (s : String)
  | dict (nameField : Option String) (durataField : Option String)
deriving DecidableEq

/-- Outcome of yaml.load on the manifest file: a parsed top-level list, or
a yaml parse failure (yaml.YAMLError). -/
inductive ManifestOutcome
  | entries (l : List YamlItem)
  | parseFailure
deriving DecidableEq

/-- The per-item loop of Playlist.load_playlist: build an element from each
item (a mapping without the name key raises KeyError), keep it only when it
is valid. -/
def loadManifestItems (fs : List String) (dirPosix : String) :
    List YamlItem → Except PyError (List PlaylistElement)
  | [] => .ok []
  | item :: rest =>
    match item with
    | .plain s =>
      let newItem := mkPlaylistElement s (some dirPosix) none
      (loadManifestItems fs dirPosix rest).map
        (fun tail => if newItem.is_valid fs then newItem :: tail else tail)
    | .dict (some n) d =>
      let newItem := mkPlaylistElement n (some dirPosix) d
      (loadManifestItems fs dirPosix rest).map
        (fun tail => if newItem.is_valid fs then newItem :: tail else tail)
    | .dict none _ => .error .keyError

/-- Playlist.load_playlist: a yaml parse failure is caught and logged and
leaves data empty; otherwise the items are loaded and filtered. -/
def load_playlist (fs : List String) (dirPosix : String) (m : ManifestOutcome) :
    Except PyError (List PlaylistElement) :=
  match m with
  | .parseFailure => .ok []
  | .entries l => loadManifestItems fs dirPosix l

/-- An existing playlist directory: its posix path, the names of the
regular files it holds, and the parse outcome of its manifest when a
playlist.yaml file is present. -/
structure Dir where
  posix : String
  files : List String
  manifest : Option ManifestOutcome

/-- Playlist.populate_playlist for an existing directory: when a manifest
file is present it is loaded, otherwise the directory scan runs. -/
def populate_playlist (fs : List String) (d : Dir) :
    Except PyError (List PlaylistElement) :=
  match d.manifest with
  | some m => load_playlist fs d.posix m
  | none => .ok (populateScan d.posix d.files)

/-- Outcomes of a save call: a successful write of the serialized entries,
an exception caught and logged by the logger.catch decorator, or an
exception propagated to the caller. -/
inductive SaveOutcome
  | success (entries : List YamlEntry)
  | caughtLogged (e : PyError)
  | raised (e : PyError)
deriving DecidableEq

/-- Serialization of every element in order, stopping at the first raise,
as the eager list(map(...)) in save does. -/
def serializeAll : List PlaylistElement → Except PyError (List YamlEntry)
  | [] => .ok []
  | e :: rest =>
    match e.serialize with
    | .error err => .error err
    | .ok y => (serializeAll rest).map (fun t => y :: t)

/-- Playlist.save under its logger.catch decorator: the file open (whose
result is the first argument) and the serialization both run inside the
decorator, so any exception is caught and logged, never propagated; the
in-memory data is returned unchanged in every case. -/
def Playlist.save (openResult : Except PyError Unit) (data : List PlaylistElement) :
    List PlaylistElement × SaveOutcome :=
  match openResult with
  | .error e => (data, .caughtLogged e)
  | .ok _ =>
    match serializeAll data with
    | .error e => (data, .caughtLogged e)
    | .ok ys => (data, .success ys)

/-- The mutable state of a PlaylistPlayer: the bound directory path, the
element list and the cursor index (class default -1). -/
structure PlayerState where
  playlist_path : Option String
  data : List PlaylistElement
  idx : Int
deriving DecidableEq

/-- Python list indexing with its negative-index rule; none models an
IndexError. -/
def pyGet (l : List PlaylistElement) (i : Int) : Option PlaylistElement :=
  if 0 ≤ i then l[i.toNat]?
  else if 0 ≤ (l.length : Int) + i then l[((l.length : Int) + i).toNat]?
  else none

/-- PlaylistPlayer.next: with no elements it returns None; otherwise the
index is assigned idx + 1 when idx < len(data) and 0 otherwise, and the
element at the new index is returned, an out-of-range access raising
IndexError after the index assignment already happened. -/
def PlaylistPlayer.next (st : PlayerState) :
    PlayerState × Except PyError (Option PlaylistElement) :=
  if st.data.length = 0 then (st, .ok none)
  else
    let idxNew : Int := if st.idx < (st.data.length : Int) then st.idx + 1 else 0
    (⟨st.playlist_path, st.data, idxNew⟩,
      match pyGet st.data idxNew with
      | some e => .ok (some e)
      | none => .error .indexError)

/-- The directory path a reload call binds: the new path when one is given,
the previously bound path otherwise. -/
def reboundPath (st : PlayerState) (newPath : Option String) : Option String :=
  match newPath with
  | some p => some p
  | none => st.playlist_path

/-- PlaylistPlayer.reload: reset idx to -1, rebind when a path is given,
re-run load for the (existing) bound directory, and return the value of
Playlist.reload, which is the Python None, modelled as Option.none; with no
bound path, load raises MissingPlaylistFolder. -/
def player_reload (fs : List String) (getDir : String → Dir) (st : PlayerState)
    (newPath : Option String) : Except PyError (PlayerState × Option Bool) :=
  match reboundPath st newPath with
  | none => .error .missingPlaylistFolder
  | some p =>
    match populate_playlist fs (getDir p) with
    | .error e => .error e
    | .ok d => .ok (⟨some p, d, -1⟩, none)

/-- Modelled from the spec: the classification rules of section 4.1,
applied in order with first match winning. -/
def classifySpecRules (s : String) : Option PlaylistElementType :=
  if pyStartsWith s "http" then some .STREAM
  else if pyEndsWith s "png" then some .IMMAGINE
  else if pyEndsWith s "jpg" then some .IMMAGINE
  else if pyEndsWith s "jpeg" then some .IMMAGINE
  else if pyEndsWith s "mp4" then some .VIDEO
  else none

/-- Modelled from the spec: the directory-scan filter of section 6, a
case-sensitive suffix match on png, jpg, jpeg or mp4. -/
def scanFilterSpec (n : String) : Bool :=
  pyEndsWith n "png" || pyEndsWith n "jpg" || pyEndsWith n "jpeg" || pyEndsWith n "mp4"

/-- A three-step cursor sample: an image element anchored at the directory
slash-d, used by several concrete evaluations. -/
def elemA : PlaylistElement := mkPlaylistElement "a.png" (some "/d") none

/-- Second image element of the cursor sample. -/
def elemB : PlaylistElement := mkPlaylistElement "b.png" (some "/d") none

/-- Third image element of the cursor sample. -/
def elemC : PlaylistElement := mkPlaylistElement "c.png" (some "/d") none

/-- A freshly loaded three-element player, cursor at the class default -1. -/
def freshPlayer3 : PlayerState := ⟨some "/d", [elemA, elemB, elemC], -1⟩

/-- Claim C1: the claim states that for a bound existing directory holding
exactly b.jpg and a.png and no manifest, Load returns the two elements
sorted, and that the scan selects exactly the entries whose names end in
png, jpg, jpeg or mp4. The glob pattern the scan actually uses matches only
names ending in a dot followed by exactly four class characters, so it
selects neither b.jpg nor a.png and Load yields the empty sequence, even
though the spec's suffix filter selects both files. -/
theorem claim_C1_scan_misses_media_files :
    populate_playlist [] ⟨"/d", ["b.jpg", "a.png"], none⟩ = .ok []
    ∧ scanGlobMatches "b.jpg" = false
    ∧ scanGlobMatches "a.png" = false
    ∧ scanFilterSpec "b.jpg" = true
    ∧ scanFilterSpec "a.png" = true :=
  ⟨rfl, rfl, rfl, rfl, rfl⟩

/-- Claim C2: the claim states that Advance wraps to zero once the position
would reach the element count, so a fresh three-element playlist returns
the elements at indices 0, 1, 2, 0. The code instead tests idx against
len(data) rather than len(data) - 1, so the fourth call assigns index 3 and
the element access raises IndexError instead of wrapping. -/
theorem claim_C2_fourth_advance_raises :
    (PlaylistPlayer.next freshPlayer3).2 = .ok (some elemA)
    ∧ (PlaylistPlayer.next freshPlayer3).1.idx = 0
    ∧ (PlaylistPlayer.next (PlaylistPlayer.next freshPlayer3).1).2 = .ok (some elemB)
    ∧ (PlaylistPlayer.next (PlaylistPlayer.next
        (PlaylistPlayer.next freshPlayer3).1).1).2 = .ok (some elemC)
    ∧ (PlaylistPlayer.next (PlaylistPlayer.next (PlaylistPlayer.next
        (PlaylistPlayer.next freshPlayer3).1).1).1).2 = .error .indexError
    ∧ (PlaylistPlayer.next (PlaylistPlayer.next (PlaylistPlayer.next
        (PlaylistPlayer.next freshPlayer3).1).1).1).1.idx = 3 :=
  ⟨rfl, rfl, rfl, rfl, rfl, rfl⟩

/-- Claim C3 counterexample: for a directory whose manifest fails to parse
and which holds a file the scan glob would accept, Load yields the empty
sequence while the directory scan would yield a non-empty one, refuting
the claimed fallback-to-scan policy. -/
theorem claim_C3_counterexample :
    populate_playlist [] ⟨"/d", ["a.jpg4"], some ManifestOutcome.parseFailure⟩ = .ok []
    ∧ populateScan "/d" ["a.jpg4"] = [⟨PathOrStr.path "/d/a.jpg4", none, none⟩] :=
  ⟨rfl, rfl⟩

/-- Claim C3 as amended: when the manifest's yaml parsing fails, Load
recovers locally without raising, but it sets the playlist to the empty
sequence; it does not fall back to the directory scan. -/
theorem claim_C3_parse_failure_yields_empty (fs : List String) (p : String)
    (files : List String) :
    populate_playlist fs ⟨p, files, some ManifestOutcome.parseFailure⟩ = .ok [] :=
  rfl

/-- Claim C4 counterexample: reloading an unchanged directory returns the
Python None, not the boolean false the claim requires. -/
theorem claim_C4_counterexample :
    player_reload [] (fun _ => ⟨"/d", [], some (ManifestOutcome.entries [])⟩)
      ⟨some "/d", [], 5⟩ none
      = .ok (⟨some "/d", [], -1⟩, (none : Option Bool))
    ∧ (none : Option Bool) ≠ some false :=
  ⟨rfl, by decide⟩

/-- Claim C4 as amended: Reload rebinds the directory when one is given,
resets the cursor to -1 and replaces the data with the freshly loaded
sequence, but it performs no comparison against the prior sequence and
returns the Python None rather than a changed flag. -/
theorem claim_C4_reload_returns_no_flag (fs : List String) (getDir : String → Dir)
    (st : PlayerState) (newPath : Option String) (stNew : PlayerState)
    (b : Option Bool)
    (h : player_reload fs getDir st newPath = .ok (stNew, b)) :
    b = none ∧ stNew.idx = -1
    ∧ stNew.playlist_path = reboundPath st newPath
    ∧ ∃ p, reboundPath st newPath = some p
        ∧ populate_playlist fs (getDir p) = .ok stNew.data := by
  unfold player_reload at h
  split at h
  · exact Except.noConfusion h
  · next p hb =>
    split at h
    · exact Except.noConfusion h
    · next d hp =>
      injection h with h2
      have hst : stNew = (⟨some p, d, -1⟩ : PlayerState) := by
        injection h2 with ha hbb
        exact ha.symm
      have hbn : b = none := by
        injection h2 with ha hbb
        exact hbb.symm
      subst hst
      exact ⟨hbn, rfl, hb.symm, p, hb, hp⟩

/-- Claim C4 witness: the amended reload theorem applied to a concrete
unchanged reload of an empty-manifest directory. -/
theorem claim_C4_witness :
    (none : Option Bool) = none
    ∧ (⟨some "/d", ([] : List PlaylistElement), -1⟩ : PlayerState).idx = -1
    ∧ (⟨some "/d", ([] : List PlaylistElement), -1⟩ : PlayerState).playlist_path
        = reboundPath ⟨some "/d", [], 5⟩ none
    ∧ ∃ p, reboundPath (⟨some "/d", [], 5⟩ : PlayerState) none = some p
        ∧ populate_playlist []
            ((fun _ => (⟨"/d", [], some (ManifestOutcome.entries [])⟩ : Dir)) p)
          = .ok (⟨some "/d", ([] : List PlaylistElement), -1⟩ : PlayerState).data :=
  claim_C4_reload_returns_no_flag []
    (fun _ => ⟨"/d", [], some (ManifestOutcome.entries [])⟩)
    ⟨some "/d", [], 5⟩ none ⟨some "/d", [], -1⟩ none rfl

/-- Claim C5 counterexample: when the manifest cannot be opened for
writing, the IOError is caught and logged by the logger.catch decorator
instead of being surfaced to the caller. -/
theorem claim_C5_counterexample :
    Playlist.save (.error .ioError) [elemA] = ([elemA], .caughtLogged .ioError)
    ∧ SaveOutcome.caughtLogged .ioError ≠ SaveOutcome.raised .ioError :=
  ⟨rfl, by decide⟩

/-- Claim C5 as amended: when the manifest cannot be written the error is
swallowed by the logger.catch decorator (logged, never propagated), and in
every case the in-memory element sequence remains the prior sequence. -/
theorem claim_C5_save_swallows_errors (e : PyError) (r : Except PyError Unit)
    (data : List PlaylistElement) :
    Playlist.save (.error e) data = (data, .caughtLogged e)
    ∧ (Playlist.save r data).1 = data := by
  constructor
  · rfl
  · cases r with
    | error e2 => rfl
    | ok u => cases hs : serializeAll data <;> simp [Playlist.save, hs]

/-- Claim C6: the claim states that two elements compare equal iff their
normalized locations and durations match. Two identically constructed
image elements have equal paths and equal (absent) durations, yet the
embedded comparison returns false, because the code tests
isinstance(other, Path) instead of isinstance(other.path, Path) and so
compares the posix string of one path against the Path object of the
other, which Python evaluates to False; only raw-string (stream) elements
compare by contents. -/
theorem claim_C6_cmp_false_on_equal_paths :
    mkPlaylistElement "a.png" (some "/d") none = mkPlaylistElement "a.png" (some "/d") none
    ∧ cmpElements (mkPlaylistElement "a.png" (some "/d") none)
        (mkPlaylistElement "a.png" (some "/d") none) = false
    ∧ cmpElements (mkPlaylistElement "http://u" none none)
        (mkPlaylistElement "http://u" none none) = true :=
  ⟨rfl, rfl, rfl⟩

/-- Claim C7: the claim states that serializing a stream never raises and
emits the full URL. A stream stores its path as a raw string, and the
attribute access path.name in serialize raises AttributeError, with or
without a duration; non-stream elements serialize to the base filename and
optional duration exactly as the claim describes. -/
theorem claim_C7_stream_serialize_raises :
    (mkPlaylistElement "http://example.com/s" none none).serialize
      = .error .attributeError
    ∧ (mkPlaylistElement "http://example.com/s" none (some "5")).serialize
      = .error .attributeError
    ∧ (mkPlaylistElement "a.png" (some "/d") none).serialize = .ok (.plain "a.png")
    ∧ (mkPlaylistElement "a.png" (some "/d") (some "5")).serialize
      = .ok (.withDurata "a.png" "5") :=
  ⟨rfl, rfl, rfl, rfl⟩

/-- Claim C8: the claim states that no unrecognized element ever appears in
a resolved playlist. The directory-scan branch performs no validity check,
and its glob admits the file a.jpg4, whose classification is None, so the
resolved playlist contains an element of unrecognized kind. -/
theorem claim_C8_scan_admits_unrecognized :
    populate_playlist [] ⟨"/d", ["a.jpg4"], none⟩
      = .ok [⟨PathOrStr.path "/d/a.jpg4", none, none⟩]
    ∧ classifica "/d/a.jpg4" = none
    ∧ (⟨PathOrStr.path "/d/a.jpg4", none, none⟩ : PlaylistElement).tipo = none :=
  ⟨rfl, rfl, rfl⟩

/-- Claim C9: classification is a pure function of the location string,
equal to the spec's ordered first-match rules, and it takes the five
stated concrete values, with no case-insensitivity. -/
theorem claim_C9_classification_matches_spec :
    (∀ s : String, classifica s = classifySpecRules s)
    ∧ classifica "http://x" = some PlaylistElementType.STREAM
    ∧ classifica "a.png" = some PlaylistElementType.IMMAGINE
    ∧ classifica "a.JPG" = none
    ∧ classifica "a.mp4" = some PlaylistElementType.VIDEO
    ∧ classifica "a.txt" = none := by
  refine ⟨fun s => ?_, rfl, rfl, rfl, rfl, rfl⟩
  unfold classifica classifySpecRules
  cases hS : pyStartsWith s "http" <;>
    cases h1 : pyEndsWith s "png" <;>
      cases h2 : pyEndsWith s "jpg" <;>
        cases h3 : pyEndsWith s "jpeg" <;>
          cases h4 : pyEndsWith s "mp4" <;>
            simp [hS, h1, h2, h3, h4]

/-- Claim C10: a call to next mutates only the cursor index; for every
player state, empty or not, the element sequence and the bound directory
path of the state after the call equal those before it. -/
theorem claim_C10_next_touches_only_idx (st : PlayerState) :
    (PlaylistPlayer.next st).1.data = st.data
    ∧ (PlaylistPlayer.next st).1.playlist_path = st.playlist_path := by
  unfold PlaylistPlayer.next
  split
  · exact ⟨rfl, rfl⟩
  · exact ⟨rfl, rfl⟩

end PlaylistsPy
